import Mathlib

/-!
Verification of the coursera-courses-eda utility library.

The development shallowly embeds the two source files of the repository:
`src/coursera_courses_eda/utils.py` (the data loader and the enrollment
parser) and the outlier detector exercised by `tests/test_utils.py`.

Modelling conventions:
* Python strings are `String` / `List Char`.
* Python `float` values produced by `float(s)` are modelled as exact
  scientific rationals (a pair of integer mantissa and decimal exponent);
  decimal-literal parsing is exact, which agrees with IEEE semantics on
  every concrete input exercised here.
* Python `int(x)` applied to a float truncates toward zero; this is
  `ratTrunc` below.
* Fallible Python code returns `Except`.
-/

deriving instance DecidableEq for Except

namespace Coursera

/-- The ASCII whitespace characters stripped by Python number parsing. -/
def isPyWs (c : Char) : Bool :=
  c == ' ' || c == '\t' || c == '\n' || c == '\r' || c == Char.ofNat 11 || c == Char.ofNat 12

/-- Drop leading Python whitespace. -/
def dropWs (l : List Char) : List Char := l.dropWhile isPyWs

/-- Consume one optional sign character, returning the sign as `1` or `-1`. -/
def parseSign : List Char → Int × List Char
  | [] => (1, [])
  | c :: r =>
    if c == '+' then (1, r)
    else if c == '-' then (-1, r)
    else (1, c :: r)

/-- Split a character list into its leading digit run and the rest. -/
def takeDigits (l : List Char) : List Char × List Char :=
  (l.takeWhile Char.isDigit, l.dropWhile Char.isDigit)

/-- Numeric value of a digit run, most significant digit first. -/
def digitsVal (l : List Char) : Nat :=
  l.foldl (fun a c => 10 * a + (c.toNat - Char.toNat '0')) 0

/-- An exact scientific number: mantissa times ten to the exponent.
This models the value produced by Python `float(s)` on a decimal literal. -/
structure Sci where
  m : Int
  e : Int
deriving DecidableEq

/-- Rational value denoted by a scientific number. -/
def Sci.toRat (s : Sci) : ℚ := (s.m : ℚ) * (10 : ℚ) ^ s.e

/-- Consume an optional fractional part `.digits` (also accepting a bare dot). -/
def parseFrac : List Char → List Char × List Char
  | [] => ([], [])
  | c :: r => if c == '.' then takeDigits r else ([], c :: r)

/-- Consume an optional exponent part `e[sign]digits`; `none` means the whole
input is malformed (an `e` marker without digits). -/
def parseExp : List Char → Option (Int × List Char)
  | [] => some (0, [])
  | c :: r =>
    if c == 'e' || c == 'E' then
      match parseSign r with
      | (sg, r1) =>
        match takeDigits r1 with
        | (ds, r2) => if ds.isEmpty then none else some (sg * (digitsVal ds : Int), r2)
    else some (0, c :: r)

/-- Model of Python `float(s)` on a character list: optional surrounding
whitespace, optional sign, a decimal mantissa with optional fraction, and an
optional exponent.  Returns the exact value as a scientific number.
(The `inf` / `nan` spellings and digit-group underscores accepted by Python
are outside the model; no input of the repository uses them.) -/
def pythonFloat (l : List Char) : Option Sci :=
  match parseSign (dropWs l) with
  | (sg, l1) =>
    match takeDigits l1 with
    | (ds1, l2) =>
      match parseFrac l2 with
      | (ds2, l3) =>
        if ds1.isEmpty && ds2.isEmpty then none
        else
          match parseExp l3 with
          | none => none
          | some (ex, l4) =>
            if (dropWs l4).isEmpty then
              some ⟨sg * (digitsVal (ds1 ++ ds2) : Int), ex - (ds2.length : Int)⟩
            else none

/-- Model of Python `int(s)` on a character list: optional surrounding
whitespace, optional sign, digits only (no dot and no exponent). -/
def pythonInt (l : List Char) : Option Int :=
  match parseSign (dropWs l) with
  | (sg, l1) =>
    match takeDigits l1 with
    | (ds, l2) =>
      if ds.isEmpty then none
      else if (dropWs l2).isEmpty then some (sg * (digitsVal ds : Int)) else none

/-- Truncation toward zero of a rational, the behaviour of Python `int()`
applied to a float. -/
def ratTrunc (q : ℚ) : Int := if 0 ≤ q then ⌊q⌋ else -⌊-q⌋

/-- Fuel-driven binary logarithm (floor), structurally recursive so that it
evaluates inside the kernel.  With fuel at least `n` it equals `⌊log2 n⌋`. -/
def log2Fuel : Nat → Nat → Nat
  | 0, _ => 0
  | f + 1, n => if n < 2 then 0 else log2Fuel f (n / 2) + 1

/-- `⌊log2 n⌋` for positive `n` (and `0` at `0`). -/
def natLog2 (n : Nat) : Nat := log2Fuel n n

/-- Whether `2 ^ j ≤ M / D`, decided over the integers. -/
def cmpPow2Le (M D : Nat) (j : Int) : Bool :=
  if 0 ≤ j then decide (D * 2 ^ j.toNat ≤ M) else decide (D ≤ M * 2 ^ (-j).toNat)

/-- `⌊log2 (M / D)⌋` for a positive fraction, from the bit lengths with a
correction step. -/
def ilogTwo (M D : Nat) : Int :=
  let c : Int := (natLog2 M : Int) - (natLog2 D : Int)
  if cmpPow2Le M D (c + 1) then c + 1
  else if cmpPow2Le M D c then c else c - 1

/-- An IEEE-754 binary64 value, exactly: an integer significand times a
power of two (the significand of a rounded result has 53 bits). -/
structure Bin where
  n : Int
  k : Int
deriving DecidableEq

/-- Rational value denoted by a binary64 value. -/
def Bin.toRat (b : Bin) : ℚ := (b.n : ℚ) * (2 : ℚ) ^ b.k

/-- Round the positive fraction `M / D` to 53 significant bits, nearest
value with ties to even — the IEEE-754 binary64 rounding of CPython float
parsing and arithmetic.  (Exponent range is unbounded here: overflow to
infinity and subnormal flushing are outside the model; every value of this
development is well inside the normal range.) -/
def roundPosFrac (M D : Nat) : Bin :=
  let e := ilogTwo M D - 52
  let num := if e ≤ 0 then M * 2 ^ (-e).toNat else M
  let den := if e ≤ 0 then D else D * 2 ^ e.toNat
  let q := num / den
  let r := num % den
  let m := if 2 * r < den then q
           else if den < 2 * r then q + 1
           else if q % 2 = 0 then q else q + 1
  ⟨(m : Int), e⟩

/-- Round a signed fraction to binary64. -/
def roundRat64 (neg : Bool) (M D : Nat) : Bin :=
  if M = 0 then ⟨0, 0⟩
  else
    let b := roundPosFrac M D
    if neg then ⟨-b.n, b.k⟩ else b

/-- The binary64 double returned by Python `float(s)` on the decimal
literal with exact value `m * 10 ^ e`: correctly rounded, as CPython
guarantees. -/
def sciToBin (s : Sci) : Bin :=
  if 0 ≤ s.e then roundRat64 (decide (s.m < 0)) (s.m.natAbs * 10 ^ s.e.toNat) 1
  else roundRat64 (decide (s.m < 0)) s.m.natAbs (10 ^ (-s.e).toNat)

/-- The binary64 product `b * mult`: the exact product re-rounded, which is
IEEE-754 double multiplication (the multiplier is exactly representable). -/
def binMulNat (b : Bin) (mult : Nat) : Bin :=
  if 0 ≤ b.k then
    roundRat64 (decide (b.n < 0)) ((b.n * mult).natAbs * 2 ^ b.k.toNat) 1
  else roundRat64 (decide (b.n < 0)) (b.n * mult).natAbs (2 ^ (-b.k).toNat)

/-- Python `int()` on a double: truncation toward zero, over integers. -/
def binTrunc (b : Bin) : Int :=
  if 0 ≤ b.k then b.n * 2 ^ b.k.toNat else b.n.tdiv (2 ^ (-b.k).toNat)

/-- The integer `int(float(s) * mult)` computed by the source: parse to the
nearest double, multiply in double precision, truncate toward zero. -/
def truncSciMulIEEE (s : Sci) (mult : Nat) : Int :=
  binTrunc (binMulNat (sciToBin s) mult)

/-- The error class raised by `convert_students_enrolled` on bad input. -/
inductive ConvertError where
  | valueError
deriving DecidableEq

/-- Python `c in value` specialised to single characters. -/
def hasChar (l : List Char) (c : Char) : Bool := l.any (fun x => x == c)

/-- Python `value.replace(c, "")` for a single-character pattern. -/
def stripChar (l : List Char) (c : Char) : List Char := l.filter (fun x => x != c)

/-- Body of `convert_students_enrolled` (utils.py lines 144-149) over a
character list: a `"k"` anywhere selects the thousands branch, else an `"m"`
anywhere selects the millions branch, else the whole string is parsed as an
integer. -/
def convertCore (l : List Char) : Except ConvertError Int :=
  if hasChar l 'k' then
    match pythonFloat (stripChar l 'k') with
    | some s => .ok (truncSciMulIEEE s 1000)
    | none => .error .valueError
  else if hasChar l 'm' then
    match pythonFloat (stripChar l 'm') with
    | some s => .ok (truncSciMulIEEE s 1000000)
    | none => .error .valueError
  else
    match pythonInt l with
    | some n => .ok n
    | none => .error .valueError

/-- `convert_students_enrolled` from utils.py lines 123-149. -/
def convert_students_enrolled (value : String) : Except ConvertError Int :=
  convertCore value.data

/-- A single apostrophe, used inside message strings. -/
def sq : String := String.mk [Char.ofNat 39]

/-- A `pathlib.Path`: an absolute flag plus the list of components. -/
structure PyPath where
  absolute : Bool
  comps : List String
deriving DecidableEq

/-- `Path.name`: the final component, or the empty string at a root. -/
def PyPath.name (p : PyPath) : String := (p.comps.getLast?).getD ""

/-- `Path.parent`: drop the final component (a root is its own parent). -/
def PyPath.parent (p : PyPath) : PyPath := ⟨p.absolute, p.comps.dropLast⟩

/-- `root / rel`: the `/` operator on paths (the right operand is relative). -/
def PyPath.join (p q : PyPath) : PyPath := ⟨p.absolute, p.comps ++ q.comps⟩

/-- POSIX-style rendering of a path, used inside error messages. -/
def pathStr (p : PyPath) : String :=
  (if p.absolute then "/" else "") ++ String.intercalate "/" p.comps

/-- Normalisation pass of `Path.resolve`: drop `.` components and let `..`
pop the previous component (at the root `..` pops nothing).  The first
argument accumulates the output in reverse. -/
def normComps : List String → List String → List String
  | acc, [] => acc.reverse
  | acc, c :: cs =>
    if c = "." then normComps acc cs
    else if c = ".." then normComps acc.tail cs
    else normComps (c :: acc) cs

/-- `Path.resolve()`: make the path absolute against the working directory
and normalise it.  Symbolic links are outside the pure model. -/
def pyResolve (cwd : List String) (p : PyPath) : PyPath :=
  ⟨true, normComps [] ((if p.absolute then [] else cwd) ++ p.comps)⟩

/-- A Python exception: dynamic class name, message, `__cause__`, and
whether its class constructor accepts a single message argument (true for
`FileNotFoundError` or `ValueError`, false for `UnicodeDecodeError`, whose
constructor takes five arguments).  The last field decides whether the
`raise type(error)(message)` re-wrap at utils.py lines 115-120 can
construct the new exception at all. -/
inductive PyExc where
  | mk (kind : String) (msg : String) (cause : Option PyExc) (oneArg : Bool)

/-- Class name of an exception. -/
def PyExc.kind : PyExc → String
  | .mk k _ _ _ => k

/-- `str(e)`: the message of an exception. -/
def PyExc.msg : PyExc → String
  | .mk _ m _ _ => m

/-- `e.__cause__`: the chained original exception, if any. -/
def PyExc.cause : PyExc → Option PyExc
  | .mk _ _ c _ => c

/-- Whether `type(e)(single string)` constructs successfully. -/
def PyExc.oneArg : PyExc → Bool
  | .mk _ _ _ a => a

/-- The `TypeError` message produced by the Python runtime when
`type(error)(message)` is called on a class whose constructor does not
take a single argument (for `UnicodeDecodeError`:
`function takes exactly 5 arguments (1 given)`). -/
def ctorFailMessage (kind : String) : String :=
  "constructor of " ++ kind ++ " does not take a single message argument"

/-- A loaded data frame is opaque to the loader claims; rows stay abstract. -/
structure DataFrame where
  rows : List (List String)
deriving DecidableEq

/-- The ambient state `load_coursera_data` reads: the working directory
(absolute, as components), `os.name`, the `is_file` predicate, and the
behaviour of `pd.read_csv`. -/
structure FsEnv where
  cwdComps : List String
  osName : String
  isFile : PyPath → Bool
  readCsv : PyPath → Except PyExc DataFrame

/-- `Path.cwd()` as a path value. -/
def FsEnv.cwd (env : FsEnv) : PyPath := ⟨true, env.cwdComps⟩

/-- utils.py lines 92-95: the project root is the parent of the working
directory when that directory is named `notebooks`, else the directory. -/
def projectRoot (env : FsEnv) : PyPath :=
  if env.cwd.name = "notebooks" then env.cwd.parent else env.cwd

/-- utils.py lines 97-100: join a relative dataset path to the project root
and canonicalise the result. -/
def resolveDataset (env : FsEnv) (p : PyPath) : PyPath :=
  pyResolve env.cwdComps (if p.absolute then p else (projectRoot env).join p)

/-- The message of the `FileNotFoundError` built at utils.py lines 103-110. -/
def fnfMessage (path cur root : PyPath) (os : String) : String :=
  "Dataset file not found at: " ++ pathStr path ++ "\n" ++
  "Current directory: " ++ pathStr cur ++ "\n" ++
  "Project root: " ++ pathStr root ++ "\n" ++
  "Operating system: " ++ os ++ "\n" ++
  "Ensure you" ++ sq ++ "re running from the project root or notebooks " ++
  "directory."

/-- The message decoration applied by the handler at utils.py lines 114-120. -/
def wrapMessage (orig : String) (os : String) (cur path : PyPath) : String :=
  orig ++ "\n" ++
  "Operating system: " ++ os ++ "\n" ++
  "Current directory: " ++ pathStr cur ++ "\n" ++
  "Attempted path: " ++ pathStr path

/-- `load_coursera_data` (utils.py lines 42-120): resolve the dataset path,
require an existing file, delegate to the CSV reader, and re-wrap every
exception with diagnostic context, chained to the original. -/
def load_coursera_data (env : FsEnv) (dataset_file_path : PyPath) :
    Except PyExc DataFrame :=
  let path := resolveDataset env dataset_file_path
  let attempt : Except PyExc DataFrame :=
    if env.isFile path then env.readCsv path
    else
      .error (.mk "FileNotFoundError"
        (fnfMessage path env.cwd (projectRoot env) env.osName) none true)
  match attempt with
  | .ok df => .ok df
  | .error e =>
    if e.oneArg then
      .error (.mk e.kind (wrapMessage e.msg env.osName env.cwd path) (some e) e.oneArg)
    else .error (.mk "TypeError" (ctorFailMessage e.kind) none true)

/-- A cell of the table: integer, floating-point, or text. -/
inductive CellValue where
  | intVal (n : Int)
  | floatVal (q : ℚ)
  | strVal (s : String)
deriving DecidableEq

/-- Whether a cell holds a numeric (integer or floating-point) value. -/
def CellValue.isNumeric : CellValue → Bool
  | .intVal _ => true
  | .floatVal _ => true
  | .strVal _ => false

/-- Numeric value of a cell (text cells are never read through this). -/
def CellValue.toRat : CellValue → ℚ
  | .intVal n => (n : ℚ)
  | .floatVal q => q
  | .strVal _ => 0

/-- A table: named columns and rows of cells, all rows sharing the
column set positionally. -/
structure Table where
  cols : List String
  rows : List (List CellValue)

/-- Errors of the outlier detector. -/
inductive DetectError where
  | keyError (column : String)
  | typeError (column : String)
deriving DecidableEq

/-- What the detector prints: the header line and the outlier rows. -/
structure OutlierReport where
  header : String
  outliers : List (List CellValue)
deriving DecidableEq

/-- Insert a rational into a sorted list, keeping it sorted. -/
def insertRat (x : ℚ) : List ℚ → List ℚ
  | [] => [x]
  | y :: ys => if x ≤ y then x :: y :: ys else y :: insertRat x ys

/-- Insertion sort for rationals, ascending. -/
def sortRats (l : List ℚ) : List ℚ := l.foldr insertRat []

/-- The `p`-th quantile (`p` given as `pnum / pden`) of an ascending list by
linear interpolation between ranked values: position `h = p * (n - 1)`
splits into the integer index `h.floor` and the fractional weight between
that value and the next. -/
def quantileLinear (sorted : List ℚ) (pnum pden : Nat) : ℚ :=
  let posNum := pnum * (sorted.length - 1)
  let i := posNum / pden
  let frac : ℚ := ((posNum % pden : Nat) : ℚ) / (pden : ℚ)
  let a := sorted.getD i 0
  let b := sorted.getD (i + 1) a
  a + frac * (b - a)

/-- The IQR fence `(Q1 - 1.5 IQR, Q3 + 1.5 IQR)` of a list of values. -/
def outlierBounds (vals : List ℚ) : ℚ × ℚ :=
  let sorted := sortRats vals
  let q1 := quantileLinear sorted 1 4
  let q3 := quantileLinear sorted 3 4
  let iqr := q3 - q1
  (q1 - 3 / 2 * iqr, q3 + 3 / 2 * iqr)

/-- Whether a value lies strictly outside the fence. -/
def isOutlier (lo hi v : ℚ) : Bool := decide (v < lo) || decide (hi < v)

/-- The cell of a row in column `i`. -/
def cellAt (i : Nat) (r : List CellValue) : CellValue := r.getD i (.intVal 0)

/-- Position of a column name in the header, leftmost match. -/
def colIndex (cols : List String) (c : String) : Option Nat :=
  match cols with
  | [] => none
  | d :: ds => if d = c then some 0 else (colIndex ds c).map (· + 1)

/-- The values of column `i` across the table. -/
def columnValues (t : Table) (i : Nat) : List CellValue := t.rows.map (cellAt i)

/-- Modelled from the spec: `detect_and_print_outliers_iqr` is imported by
`tests/test_utils.py` but absent from `src/coursera_courses_eda/utils.py`;
this follows spec section 4.3.  A missing column is a `KeyError` naming the
column; a non-numeric column is a `TypeError`; otherwise Q1 and Q3 are the
25th and 75th percentiles by linear interpolation, the fence is
`Q1 - 1.5 IQR` to `Q3 + 1.5 IQR`, the header line is printed
unconditionally, and the full rows strictly outside the fence follow it. -/
def detect_and_print_outliers_iqr (t : Table) (column : String) :
    Except DetectError OutlierReport :=
  match colIndex t.cols column with
  | none => .error (.keyError column)
  | some i =>
    if (columnValues t i).all CellValue.isNumeric then
      let bounds := outlierBounds ((columnValues t i).map CellValue.toRat)
      .ok ⟨"Potential outliers for " ++ sq ++ column ++ sq ++ ":",
        t.rows.filter (fun r => isOutlier bounds.1 bounds.2 (cellAt i r).toRat)⟩
    else .error (.typeError column)

/-- The suffix branch as the spec words it: strip every occurrence of the
suffix character, parse the remainder as a float, multiply, truncate. -/
def specFloatBranch (l : List Char) (c : Char) (mult : Nat) :
    Except ConvertError Int :=
  match pythonFloat (stripChar l c) with
  | some s => .ok (truncSciMulIEEE s mult)
  | none => .error .valueError

/-- The integer branch as the spec words it: parse the whole string as an
integer directly. -/
def specIntBranch (l : List Char) : Except ConvertError Int :=
  (pythonInt l).elim (.error .valueError) .ok

/-- The project-root rule as the spec words it (section 3): the parent of
the working directory exactly when that directory is named `notebooks`,
else the working directory itself. -/
def specProjectRoot (cwd : PyPath) : PyPath :=
  if cwd.name = "notebooks" then cwd.parent else cwd

/-- The resolution algorithm as the spec words it (section 4.1): join a
relative path to the project root, keep an absolute path as-is, then
canonicalise. -/
def specResolvedPath (env : FsEnv) (p : PyPath) : PyPath :=
  pyResolve env.cwdComps (if p.absolute then p else (specProjectRoot env.cwd).join p)

/-- `pat` occurs (at least) twice in `l`, at non-overlapping positions. -/
def twoOcc (pat l : List Char) : Prop :=
  ∃ a b c : List Char, l = a ++ pat ++ b ++ pat ++ c

/-- The column names of the test fixture table. -/
def sampleCols : List String :=
  ["organization", "course_rating", "course_students_enrolled",
   "course_difficulty", "course_certificate_type"]

/-- A fixture row: organization, rating, enrolled count, difficulty,
certificate type. -/
def sampleRow (org : String) (rating : ℚ) (enrolled : Int) (diff cert : String) :
    List CellValue :=
  [.strVal org, .floatVal rating, .intVal enrolled, .strVal diff, .strVal cert]

/-- The table of `test_detect_and_print_outliers_iqr`: the six fixture rows
plus the `OrgF` outlier row, with the enrollment column already converted
through `convert_students_enrolled`. -/
def outlierTable : Table :=
  ⟨sampleCols,
   [sampleRow "OrgA" (9 / 2) 1200 "Intermediate" "Verified",
    sampleRow "OrgB" 4 3500 "Beginner" "Audit",
    sampleRow "OrgC" (19 / 5) 500 "Advanced" "Verified",
    sampleRow "OrgA" (47 / 10) 2000000 "Intermediate" "Audit",
    sampleRow "OrgD" (5 / 2) 750 "Beginner" "None",
    sampleRow "OrgE" (21 / 5) 1800 "Advanced" "Verified",
    sampleRow "OrgF" 5 10000000 "Advanced" "Verified"]⟩

/-- The unmodified six-row fixture table, enrollment column still text. -/
def sampleTable : Table :=
  ⟨sampleCols,
   [sampleRow "OrgA" (9 / 2) 0 "Intermediate" "Verified",
    sampleRow "OrgB" 4 0 "Beginner" "Audit",
    sampleRow "OrgC" (19 / 5) 0 "Advanced" "Verified",
    sampleRow "OrgA" (47 / 10) 0 "Intermediate" "Audit",
    sampleRow "OrgD" (5 / 2) 0 "Beginner" "None",
    sampleRow "OrgE" (21 / 5) 0 "Advanced" "Verified"]⟩

/-- A concrete environment for the loader witnesses: a project-root working
directory, no file present anywhere, and a reader that always fails. -/
def sampleEnv : FsEnv :=
  ⟨["home", "user", "coursera-courses-eda"], "posix",
   fun _ => false,
   fun _ => .error (.mk "ParserError" "Read error" none true)⟩

/-- A concrete environment whose dataset file exists but whose reader
fails, as in `test_load_coursera_data_read_exception`. -/
def readFailEnv : FsEnv :=
  ⟨["home", "user", "coursera-courses-eda"], "posix",
   fun _ => true,
   fun _ => .error (.mk "ParserError" "Read error" none true)⟩

/-- A reader error whose class (like `UnicodeDecodeError`) cannot be
constructed from a single message string. -/
def unicodeErr : PyExc := .mk "UnicodeDecodeError" "invalid start byte" none false

/-- An environment whose dataset file exists but whose reader fails with
an encoding error of a five-argument exception class. -/
def unicodeReadEnv : FsEnv :=
  ⟨["home", "user", "coursera-courses-eda"], "posix",
   fun _ => true,
   fun _ => .error unicodeErr⟩

/-- The default dataset path `data/coursera_data.csv`, relative. -/
def dataPath : PyPath := ⟨false, ["data", "coursera_data.csv"]⟩

/-- An alternative `is_file` oracle that differs from `sampleEnv.isFile`
away from the resolved dataset path. -/
def altIsFile : PyPath → Bool := fun p => p.comps.isEmpty

/-! ## Arithmetic facts about truncation -/

theorem ratTrunc_intCast (z : ℤ) : ratTrunc (z : ℚ) = z := by
  unfold ratTrunc
  split
  · exact Int.floor_intCast z
  · rw [← Int.cast_neg, Int.floor_intCast, neg_neg]

theorem ratTrunc_intCast_div_natCast (a : ℤ) (b : ℕ) (hb : 0 < b) :
    ratTrunc ((a : ℚ) / (b : ℚ)) = a.tdiv b := by
  rcases le_or_lt 0 a with ha | ha
  · have hq : 0 ≤ (a : ℚ) / (b : ℚ) :=
      div_nonneg (by exact_mod_cast ha) (by positivity)
    rw [ratTrunc, if_pos hq, Rat.floor_intCast_div_natCast,
      Int.tdiv_eq_ediv ha (Int.natCast_nonneg b)]
  · have hq : (a : ℚ) / (b : ℚ) < 0 :=
      div_neg_of_neg_of_pos (by exact_mod_cast ha) (by exact_mod_cast hb)
    rw [ratTrunc, if_neg (not_le.mpr hq), ← neg_div, ← Int.cast_neg,
      Rat.floor_intCast_div_natCast,
      ← Int.tdiv_eq_ediv (by omega) (Int.natCast_nonneg b), Int.neg_tdiv, neg_neg]

theorem binTrunc_eq_ratTrunc (b : Bin) : binTrunc b = ratTrunc b.toRat := by
  unfold binTrunc Bin.toRat
  split
  · rename_i he
    obtain ⟨n, hn⟩ : ∃ n : ℕ, b.k = (n : ℤ) := ⟨b.k.toNat, (Int.toNat_of_nonneg he).symm⟩
    have hv : (b.n : ℚ) * (2 : ℚ) ^ (n : ℤ) = ((b.n * 2 ^ n : ℤ) : ℚ) := by
      rw [zpow_natCast]
      push_cast
      ring
    rw [hn, hv, ratTrunc_intCast, Int.toNat_natCast]
  · rename_i he
    obtain ⟨n, hn⟩ : ∃ n : ℕ, b.k = -(n : ℤ) := by
      refine ⟨(-b.k).toNat, ?_⟩
      have := Int.toNat_of_nonneg (by omega : (0 : ℤ) ≤ -b.k)
      omega
    have hv : (b.n : ℚ) * (2 : ℚ) ^ (-(n : ℤ)) =
        ((b.n : ℤ) : ℚ) / ((2 ^ n : ℕ) : ℚ) := by
      rw [zpow_neg, zpow_natCast]
      push_cast
      field_simp
    rw [hn, hv, ratTrunc_intCast_div_natCast _ _ (by positivity), neg_neg,
      Int.toNat_natCast]
    norm_num

/-! ## Character-list helpers -/

theorem hasChar_append (a b : List Char) (c : Char) :
    hasChar (a ++ b) c = (hasChar a c || hasChar b c) := by
  simp [hasChar]

theorem stripChar_append (a b : List Char) (c : Char) :
    stripChar (a ++ b) c = stripChar a c ++ stripChar b c := by
  simp [stripChar]

theorem stripChar_of_not_has (l : List Char) (c : Char) (h : hasChar l c = false) :
    stripChar l c = l := by
  have h2 : ∀ x ∈ l, ¬x = c := by simpa [hasChar] using h
  rw [stripChar, List.filter_eq_self]
  intro a ha
  simpa using h2 a ha

theorem convertCore_append_k (l : List Char) (sc : Sci)
    (hf : pythonFloat l = some sc) (hk : hasChar l 'k' = false) :
    convertCore (l ++ ['k']) = .ok (truncSciMulIEEE sc 1000) := by
  have h1 : hasChar (l ++ ['k']) 'k' = true := by
    rw [hasChar_append]
    simp [hasChar]
  have h2 : stripChar (l ++ ['k']) 'k' = l := by
    rw [stripChar_append, stripChar_of_not_has l 'k' hk]
    simp [stripChar]
  rw [convertCore, if_pos h1, h2, hf]

theorem convertCore_append_m (l : List Char) (sc : Sci)
    (hf : pythonFloat l = some sc) (hk : hasChar l 'k' = false)
    (hm : hasChar l 'm' = false) :
    convertCore (l ++ ['m']) = .ok (truncSciMulIEEE sc 1000000) := by
  have h1 : hasChar (l ++ ['m']) 'k' = false := by
    rw [hasChar_append, hk]
    simp [hasChar]
  have h2 : hasChar (l ++ ['m']) 'm' = true := by
    rw [hasChar_append]
    simp [hasChar]
  have h3 : stripChar (l ++ ['m']) 'm' = l := by
    rw [stripChar_append, stripChar_of_not_has l 'm' hm]
    simp [stripChar]
  rw [convertCore, if_neg (by simp [h1]), if_pos h2, h3, hf]

/-! ## Claims about the enrollment parser -/

/-- Counterexample to claim C1 as stated: on the numeric prefix `1.005`
the exact product gives floor(1.005 * 1000) = 1005 (truncation agrees,
1005 being nonnegative), but the program returns 1004 — `float("1.005")`
is the nearest double, slightly below 1.005, the double product
`float("1.005") * 1000` is strictly below 1005, and `int()` truncates it
down to 1004. -/
theorem C1_counterexample :
    pythonFloat "1.005".data = some ⟨1005, -3⟩ ∧
    (Sci.mk 1005 (-3)).toRat * 1000 = 1005 ∧
    ratTrunc ((Sci.mk 1005 (-3)).toRat * 1000) = 1005 ∧
    ⌊(Sci.mk 1005 (-3)).toRat * 1000⌋ = 1005 ∧
    convert_students_enrolled "1.005k" = .ok 1004 := by
  have hval : (Sci.mk 1005 (-3)).toRat * 1000 = 1005 := by
    rw [Sci.toRat]
    norm_num
  refine ⟨by decide, hval, ?_, ?_, by decide⟩
  · rw [hval]
    rw [show ((1005 : ℚ) = ((1005 : ℤ) : ℚ)) by norm_num, ratTrunc_intCast]
  · rw [hval]
    rw [show ((1005 : ℚ) = ((1005 : ℤ) : ℚ)) by norm_num, Int.floor_intCast]

/-- Claim C1 (amended): on a numeric prefix with value `v` and suffix `k`
the program returns the truncation toward zero of the IEEE-754 binary64
product `float(v) * 1000` (with `m`, `* 1000000`); whenever the rounded
double product equals the exact product `v * mult` — as at every
documented example — the result is floor(v * mult).  The concrete cases
follow. -/
theorem C1_suffix_scaling_amended :
    (∀ (s : String) (sc : Sci), pythonFloat s.data = some sc →
      hasChar s.data 'k' = false →
      convert_students_enrolled (s ++ "k") =
        .ok (ratTrunc (binMulNat (sciToBin sc) 1000).toRat) ∧
      ((binMulNat (sciToBin sc) 1000).toRat = sc.toRat * 1000 →
        0 ≤ sc.toRat * 1000 →
        ratTrunc (binMulNat (sciToBin sc) 1000).toRat = ⌊sc.toRat * 1000⌋)) ∧
    (∀ (s : String) (sc : Sci), pythonFloat s.data = some sc →
      hasChar s.data 'k' = false → hasChar s.data 'm' = false →
      convert_students_enrolled (s ++ "m") =
        .ok (ratTrunc (binMulNat (sciToBin sc) 1000000).toRat) ∧
      ((binMulNat (sciToBin sc) 1000000).toRat = sc.toRat * 1000000 →
        0 ≤ sc.toRat * 1000000 →
        ratTrunc (binMulNat (sciToBin sc) 1000000).toRat = ⌊sc.toRat * 1000000⌋)) ∧
    convert_students_enrolled "1.5k" = .ok 1500 ∧
    convert_students_enrolled "3.25k" = .ok 3250 ∧
    convert_students_enrolled "2m" = .ok 2000000 ∧
    convert_students_enrolled "4.75m" = .ok 4750000 ∧
    convert_students_enrolled "0k" = .ok 0 := by
  refine ⟨?_, ?_, by decide, by decide, by decide, by decide, by decide⟩
  · intro s sc hf hk
    constructor
    · have hdata : (s ++ "k").data = s.data ++ ['k'] := by
        rw [String.data_append]
      rw [convert_students_enrolled, hdata, convertCore_append_k s.data sc hf hk,
        truncSciMulIEEE, binTrunc_eq_ratTrunc]
    · intro hexact hpos
      rw [hexact, ratTrunc, if_pos hpos]
  · intro s sc hf hk hm
    constructor
    · have hdata : (s ++ "m").data = s.data ++ ['m'] := by
        rw [String.data_append]
      rw [convert_students_enrolled, hdata, convertCore_append_m s.data sc hf hk hm,
        truncSciMulIEEE, binTrunc_eq_ratTrunc]
    · intro hexact hpos
      rw [hexact, ratTrunc, if_pos hpos]

/-- Witness for the amended C1 at the concrete prefixes `1.5` (with `k`)
and `4.75` (with `m`): both double products are exact, so the program
returns the floors 1500 and 4750000. -/
theorem C1_suffix_scaling_amended_witness :
    (pythonFloat "1.5".data = some ⟨15, -1⟩ ∧
      hasChar "1.5".data 'k' = false ∧
      convert_students_enrolled ("1.5" ++ "k") =
        .ok (ratTrunc (binMulNat (sciToBin ⟨15, -1⟩) 1000).toRat) ∧
      (binMulNat (sciToBin ⟨15, -1⟩) 1000).toRat = (Sci.mk 15 (-1)).toRat * 1000 ∧
      0 ≤ (Sci.mk 15 (-1)).toRat * 1000 ∧
      ratTrunc (binMulNat (sciToBin ⟨15, -1⟩) 1000).toRat =
        ⌊(Sci.mk 15 (-1)).toRat * 1000⌋) ∧
    (pythonFloat "4.75".data = some ⟨475, -2⟩ ∧
      hasChar "4.75".data 'k' = false ∧
      hasChar "4.75".data 'm' = false ∧
      convert_students_enrolled ("4.75" ++ "m") =
        .ok (ratTrunc (binMulNat (sciToBin ⟨475, -2⟩) 1000000).toRat) ∧
      (binMulNat (sciToBin ⟨475, -2⟩) 1000000).toRat =
        (Sci.mk 475 (-2)).toRat * 1000000 ∧
      0 ≤ (Sci.mk 475 (-2)).toRat * 1000000 ∧
      ratTrunc (binMulNat (sciToBin ⟨475, -2⟩) 1000000).toRat =
        ⌊(Sci.mk 475 (-2)).toRat * 1000000⌋) := by
  have hb1 : binMulNat (sciToBin ⟨15, -1⟩) 1000 = ⟨6597069766656000, -42⟩ := by
    decide
  have hx1 : (binMulNat (sciToBin ⟨15, -1⟩) 1000).toRat =
      (Sci.mk 15 (-1)).toRat * 1000 := by
    rw [hb1, Bin.toRat, Sci.toRat]
    norm_num
  have hp1 : (0 : ℚ) ≤ (Sci.mk 15 (-1)).toRat * 1000 := by
    rw [Sci.toRat]
    norm_num
  have hb2 : binMulNat (sciToBin ⟨475, -2⟩) 1000000 = ⟨5100273664000000, -30⟩ := by
    decide
  have hx2 : (binMulNat (sciToBin ⟨475, -2⟩) 1000000).toRat =
      (Sci.mk 475 (-2)).toRat * 1000000 := by
    rw [hb2, Bin.toRat, Sci.toRat]
    norm_num
  have hp2 : (0 : ℚ) ≤ (Sci.mk 475 (-2)).toRat * 1000000 := by
    rw [Sci.toRat]
    norm_num
  exact ⟨⟨by decide, by decide,
      (C1_suffix_scaling_amended.1 "1.5" ⟨15, -1⟩ (by decide) (by decide)).1,
      hx1, hp1,
      (C1_suffix_scaling_amended.1 "1.5" ⟨15, -1⟩ (by decide) (by decide)).2 hx1 hp1⟩,
    ⟨by decide, by decide, by decide,
      (C1_suffix_scaling_amended.2.1 "4.75" ⟨475, -2⟩ (by decide) (by decide)
        (by decide)).1,
      hx2, hp2,
      (C1_suffix_scaling_amended.2.1 "4.75" ⟨475, -2⟩ (by decide) (by decide)
        (by decide)).2 hx2 hp2⟩⟩

/-- Claim C2 (behaviour at the documented invalid inputs): `"1.2b"`,
`"abc"` and `" "` raise a value error, but `"-1k"` does not — the code
returns `-1000`, although `test_convert_students_enrolled_invalid` expects
a `ValueError` for it. -/
theorem C2_invalid_inputs :
    convert_students_enrolled "1.2b" = .error .valueError ∧
    convert_students_enrolled "abc" = .error .valueError ∧
    convert_students_enrolled " " = .error .valueError ∧
    convert_students_enrolled "-1k" = .ok (-1000) := by
  refine ⟨by decide, by decide, by decide, by decide⟩

/-- Claim C3: branch selection is case-sensitive and first-match-wins in
the order `k` then `m`; a `k` anywhere selects the thousands float branch
even when `m` is also present, else an `m` anywhere selects the millions
float branch, else the whole string goes through the plain integer parse,
so `"500"` converts and `"1.2b"` and `"2K"` fail. -/
theorem C3_branch_order :
    (∀ s : String, hasChar s.data 'k' = true →
      convert_students_enrolled s = specFloatBranch s.data 'k' 1000) ∧
    (∀ s : String, hasChar s.data 'k' = false → hasChar s.data 'm' = true →
      convert_students_enrolled s = specFloatBranch s.data 'm' 1000000) ∧
    (∀ s : String, hasChar s.data 'k' = false → hasChar s.data 'm' = false →
      convert_students_enrolled s = specIntBranch s.data) ∧
    convert_students_enrolled "500" = .ok 500 ∧
    convert_students_enrolled "1.2b" = .error .valueError ∧
    convert_students_enrolled "2K" = .error .valueError := by
  refine ⟨?_, ?_, ?_, by decide, by decide, by decide⟩
  · intro s hk
    rw [convert_students_enrolled, convertCore, if_pos hk, specFloatBranch]
  · intro s hk hm
    rw [convert_students_enrolled, convertCore, if_neg (by simp [hk]), if_pos hm,
      specFloatBranch]
  · intro s hk hm
    rw [convert_students_enrolled, convertCore, if_neg (by simp [hk]),
      if_neg (by simp [hm]), specIntBranch]
    cases pythonInt s.data <;> rfl

/-! ## Whitespace invariance of the number parsers -/

theorem ws_not_digit (c : Char) (h : isPyWs c = true) : c.isDigit = false := by
  simp only [isPyWs, Bool.or_eq_true, beq_iff_eq] at h
  rcases h with ((((h | h) | h) | h) | h) | h <;> subst h <;> decide

theorem ws_ne_chars (c : Char) (h : isPyWs c = true) :
    (c == '+') = false ∧ (c == '-') = false ∧ (c == '.') = false ∧
    (c == 'e') = false ∧ (c == 'E') = false ∧ (c == 'k') = false ∧
    (c == 'm') = false := by
  simp only [isPyWs, Bool.or_eq_true, beq_iff_eq] at h
  rcases h with ((((h | h) | h) | h) | h) | h <;> subst h <;> decide

theorem dropWs_ws_append (w l : List Char) (hw : ∀ c ∈ w, isPyWs c = true) :
    dropWs (w ++ l) = dropWs l := by
  induction w with
  | nil => rfl
  | cons c cs ih =>
    have hc := hw c (List.mem_cons_self c cs)
    simp only [dropWs, List.cons_append, List.dropWhile_cons, hc, if_true]
    exact ih fun x hx => hw x (List.mem_cons_of_mem c hx)

theorem dropWs_all_ws (w : List Char) (hw : ∀ c ∈ w, isPyWs c = true) :
    dropWs w = [] := by
  have h := dropWs_ws_append w [] hw
  simpa using h

theorem dropWs_append_not_nil (l w : List Char) (h : dropWs l ≠ []) :
    dropWs (l ++ w) = dropWs l ++ w := by
  induction l with
  | nil => simp [dropWs] at h
  | cons c cs ih =>
    by_cases hc : isPyWs c = true
    · simp only [dropWs, List.cons_append, List.dropWhile_cons, hc, if_true] at h ⊢
      exact ih h
    · simp [dropWs, List.cons_append, List.dropWhile_cons, hc]

theorem dropWs_append_isEmpty (l w : List Char) (hw : ∀ c ∈ w, isPyWs c = true) :
    (dropWs (l ++ w)).isEmpty = (dropWs l).isEmpty := by
  by_cases h : dropWs l = []
  · have hl : ∀ c ∈ l, isPyWs c = true := List.dropWhile_eq_nil_iff.mp h
    rw [dropWs_ws_append l w hl, dropWs_all_ws w hw, h]
  · rw [dropWs_append_not_nil l w h]
    cases hd : dropWs l with
    | nil => exact absurd hd h
    | cons x xs => simp

theorem takeWhile_digit_append_ws (l w : List Char)
    (hw : ∀ c ∈ w, isPyWs c = true) :
    (l ++ w).takeWhile Char.isDigit = l.takeWhile Char.isDigit := by
  induction l with
  | nil =>
    cases w with
    | nil => rfl
    | cons c cs =>
      have hc := ws_not_digit c (hw c (List.mem_cons_self c cs))
      simp [List.takeWhile_cons, hc]
  | cons c cs ih =>
    by_cases h : c.isDigit = true
    · simp [List.takeWhile_cons, h, ih]
    · simp [List.takeWhile_cons, h]

theorem dropWhile_digit_append_ws (l w : List Char)
    (hw : ∀ c ∈ w, isPyWs c = true) :
    (l ++ w).dropWhile Char.isDigit = l.dropWhile Char.isDigit ++ w := by
  induction l with
  | nil =>
    cases w with
    | nil => rfl
    | cons c cs =>
      have hc := ws_not_digit c (hw c (List.mem_cons_self c cs))
      simp [List.dropWhile_cons, hc]
  | cons c cs ih =>
    by_cases h : c.isDigit = true
    · simp [List.dropWhile_cons, h, ih]
    · simp [List.dropWhile_cons, h]

theorem takeDigits_append_ws (l w : List Char) (hw : ∀ c ∈ w, isPyWs c = true) :
    takeDigits (l ++ w) = ((takeDigits l).1, (takeDigits l).2 ++ w) := by
  unfold takeDigits
  rw [takeWhile_digit_append_ws l w hw, dropWhile_digit_append_ws l w hw]

theorem parseSign_append_ws (l w : List Char) (hw : ∀ c ∈ w, isPyWs c = true) :
    parseSign (l ++ w) = ((parseSign l).1, (parseSign l).2 ++ w) := by
  cases l with
  | nil =>
    cases w with
    | nil => rfl
    | cons c cs =>
      obtain ⟨h1, h2, -⟩ := ws_ne_chars c (hw c (List.mem_cons_self c cs))
      simp [parseSign, h1, h2]
  | cons c cs =>
    by_cases h1 : (c == '+') = true
    · simp [parseSign, h1]
    · by_cases h2 : (c == '-') = true
      · simp [parseSign, h1, h2]
      · simp [parseSign, h1, h2]

theorem parseFrac_append_ws (l w : List Char) (hw : ∀ c ∈ w, isPyWs c = true) :
    parseFrac (l ++ w) = ((parseFrac l).1, (parseFrac l).2 ++ w) := by
  cases l with
  | nil =>
    cases w with
    | nil => rfl
    | cons c cs =>
      obtain ⟨-, -, h3, -⟩ := ws_ne_chars c (hw c (List.mem_cons_self c cs))
      simp [parseFrac, h3]
  | cons c cs =>
    by_cases h : (c == '.') = true
    · simp only [List.cons_append, parseFrac, h, if_true]
      exact takeDigits_append_ws cs w hw
    · simp [parseFrac, h]

theorem parseExp_append_ws (l w : List Char) (hw : ∀ c ∈ w, isPyWs c = true) :
    parseExp (l ++ w) = (parseExp l).map (fun pr => (pr.1, pr.2 ++ w)) := by
  cases l with
  | nil =>
    cases w with
    | nil => rfl
    | cons c cs =>
      obtain ⟨-, -, -, h4, h5, -⟩ := ws_ne_chars c (hw c (List.mem_cons_self c cs))
      simp [parseExp, h4, h5]
  | cons c cs =>
    by_cases he : (c == 'e' || c == 'E') = true
    · rcases hsg : parseSign cs with ⟨sg, r1⟩
      rcases htd : takeDigits r1 with ⟨ds, r2⟩
      have hsg2 := parseSign_append_ws cs w hw
      have htd2 := takeDigits_append_ws r1 w hw
      rw [hsg] at hsg2
      rw [htd] at htd2
      simp only [List.cons_append, parseExp, he, if_true, hsg, hsg2, htd, htd2]
      by_cases hds : ds.isEmpty = true
      · simp [hds]
      · simp [hds]
    · simp [parseExp, he]

theorem pythonFloat_append_ws (l w : List Char) (hw : ∀ c ∈ w, isPyWs c = true) :
    pythonFloat (l ++ w) = pythonFloat l := by
  by_cases hnil : dropWs l = []
  · have hl : ∀ c ∈ l, isPyWs c = true := List.dropWhile_eq_nil_iff.mp hnil
    have h1 : dropWs (l ++ w) = [] := by
      rw [dropWs_ws_append l w hl, dropWs_all_ws w hw]
    simp [pythonFloat, h1, hnil, parseSign, takeDigits, parseFrac]
  · have h1 : dropWs (l ++ w) = dropWs l ++ w := dropWs_append_not_nil l w hnil
    rcases hsg : parseSign (dropWs l) with ⟨sg, l1⟩
    rcases htd : takeDigits l1 with ⟨ds1, l2⟩
    rcases hfr : parseFrac l2 with ⟨ds2, l3⟩
    have hsg2 := parseSign_append_ws (dropWs l) w hw
    have htd2 := takeDigits_append_ws l1 w hw
    have hfr2 := parseFrac_append_ws l2 w hw
    rw [hsg] at hsg2
    rw [htd] at htd2
    rw [hfr] at hfr2
    simp only [pythonFloat, h1, hsg, hsg2, htd, htd2, hfr, hfr2]
    by_cases hds : (ds1.isEmpty && ds2.isEmpty) = true
    · simp [hds]
    · simp only [hds, Bool.false_eq_true, if_false]
      rw [parseExp_append_ws l3 w hw]
      cases hex : parseExp l3 with
      | none => simp
      | some pr =>
        rcases pr with ⟨ex, l4⟩
        simp only [Option.map_some']
        rw [dropWs_append_isEmpty l4 w hw]

theorem pythonFloat_ws_append (w l : List Char) (hw : ∀ c ∈ w, isPyWs c = true) :
    pythonFloat (w ++ l) = pythonFloat l := by
  unfold pythonFloat
  rw [dropWs_ws_append w l hw]

theorem pythonInt_append_ws (l w : List Char) (hw : ∀ c ∈ w, isPyWs c = true) :
    pythonInt (l ++ w) = pythonInt l := by
  by_cases hnil : dropWs l = []
  · have hl : ∀ c ∈ l, isPyWs c = true := List.dropWhile_eq_nil_iff.mp hnil
    have h1 : dropWs (l ++ w) = [] := by
      rw [dropWs_ws_append l w hl, dropWs_all_ws w hw]
    simp [pythonInt, h1, hnil, parseSign, takeDigits]
  · have h1 : dropWs (l ++ w) = dropWs l ++ w := dropWs_append_not_nil l w hnil
    rcases hsg : parseSign (dropWs l) with ⟨sg, l1⟩
    rcases htd : takeDigits l1 with ⟨ds, l2⟩
    have hsg2 := parseSign_append_ws (dropWs l) w hw
    have htd2 := takeDigits_append_ws l1 w hw
    rw [hsg] at hsg2
    rw [htd] at htd2
    simp only [pythonInt, h1, hsg, hsg2, htd, htd2]
    by_cases hds : ds.isEmpty = true
    · simp [hds]
    · simp only [hds, Bool.false_eq_true, if_false]
      rw [dropWs_append_isEmpty l2 w hw]

theorem pythonInt_ws_append (w l : List Char) (hw : ∀ c ∈ w, isPyWs c = true) :
    pythonInt (w ++ l) = pythonInt l := by
  unfold pythonInt
  rw [dropWs_ws_append w l hw]

theorem hasChar_ws_k (w : List Char) (hw : ∀ c ∈ w, isPyWs c = true) :
    hasChar w 'k' = false := by
  rw [hasChar, List.any_eq_false]
  intro x hx
  exact fun hh => by simpa [hh] using (ws_ne_chars x (hw x hx)).2.2.2.2.2.1

theorem hasChar_ws_m (w : List Char) (hw : ∀ c ∈ w, isPyWs c = true) :
    hasChar w 'm' = false := by
  rw [hasChar, List.any_eq_false]
  intro x hx
  exact fun hh => by simpa [hh] using (ws_ne_chars x (hw x hx)).2.2.2.2.2.2

theorem stripChar_wrap_ws (w1 w2 l : List Char) (c : Char)
    (hc1 : hasChar w1 c = false) (hc2 : hasChar w2 c = false) :
    stripChar (w1 ++ l ++ w2) c = w1 ++ stripChar l c ++ w2 := by
  rw [stripChar_append, stripChar_append, stripChar_of_not_has w1 c hc1,
    stripChar_of_not_has w2 c hc2]

theorem convertCore_ws (w1 w2 l : List Char)
    (h1 : ∀ c ∈ w1, isPyWs c = true) (h2 : ∀ c ∈ w2, isPyWs c = true) :
    convertCore (w1 ++ l ++ w2) = convertCore l := by
  have hk : hasChar (w1 ++ l ++ w2) 'k' = hasChar l 'k' := by
    rw [hasChar_append, hasChar_append, hasChar_ws_k w1 h1, hasChar_ws_k w2 h2]
    simp
  have hm : hasChar (w1 ++ l ++ w2) 'm' = hasChar l 'm' := by
    rw [hasChar_append, hasChar_append, hasChar_ws_m w1 h1, hasChar_ws_m w2 h2]
    simp
  have hfk : pythonFloat (stripChar (w1 ++ l ++ w2) 'k') =
      pythonFloat (stripChar l 'k') := by
    rw [stripChar_wrap_ws w1 w2 l 'k' (hasChar_ws_k w1 h1) (hasChar_ws_k w2 h2),
      List.append_assoc, pythonFloat_ws_append w1 _ h1,
      pythonFloat_append_ws _ w2 h2]
  have hfm : pythonFloat (stripChar (w1 ++ l ++ w2) 'm') =
      pythonFloat (stripChar l 'm') := by
    rw [stripChar_wrap_ws w1 w2 l 'm' (hasChar_ws_m w1 h1) (hasChar_ws_m w2 h2),
      List.append_assoc, pythonFloat_ws_append w1 _ h1,
      pythonFloat_append_ws _ w2 h2]
  have hi : pythonInt (w1 ++ l ++ w2) = pythonInt l := by
    rw [List.append_assoc, pythonInt_ws_append w1 _ h1, pythonInt_append_ws l w2 h2]
  rw [convertCore, convertCore, hk, hm, hfk, hfm, hi]

/-- Claim C10: surrounding whitespace never changes the result of
`convert_students_enrolled` — the wrapped input converts to exactly what
the trimmed input converts to (so valid numerals keep their value, and
only empty or non-numeric remainders raise); concrete padded inputs
convert as their trimmed forms do. -/
theorem C10_whitespace_tolerant :
    (∀ (w1 w2 l : List Char), (∀ c ∈ w1, isPyWs c = true) →
      (∀ c ∈ w2, isPyWs c = true) →
      convertCore (w1 ++ l ++ w2) = convertCore l) ∧
    convert_students_enrolled " 1.5k " = .ok 1500 ∧
    convert_students_enrolled " 500 " = .ok 500 ∧
    convert_students_enrolled "\t2m\n" = .ok 2000000 := by
  exact ⟨convertCore_ws, by decide, by decide, by decide⟩

/-- Witness for C10: a single blank on each side of `500`. -/
theorem C10_whitespace_tolerant_witness :
    (∀ c ∈ [' '], isPyWs c = true) ∧
    convertCore ([' '] ++ "500".data ++ [' ']) = convertCore "500".data :=
  ⟨by decide, C10_whitespace_tolerant.1 [' '] [' '] "500".data (by decide) (by decide)⟩

/-- Witness for C3: the `k` branch fires on `"1.5km"` even though an `m`
is present, the `m` branch fires on `"2m"`, and the integer branch fires
on `"500"`. -/
theorem C3_branch_order_witness :
    (hasChar "1.5km".data 'k' = true ∧
      convert_students_enrolled "1.5km" = specFloatBranch "1.5km".data 'k' 1000) ∧
    (hasChar "2m".data 'k' = false ∧ hasChar "2m".data 'm' = true ∧
      convert_students_enrolled "2m" = specFloatBranch "2m".data 'm' 1000000) ∧
    (hasChar "500".data 'k' = false ∧ hasChar "500".data 'm' = false ∧
      convert_students_enrolled "500" = specIntBranch "500".data) :=
  ⟨⟨by decide, C3_branch_order.1 "1.5km" (by decide)⟩,
   ⟨by decide, by decide, C3_branch_order.2.1 "2m" (by decide) (by decide)⟩,
   ⟨by decide, by decide, C3_branch_order.2.2.1 "500" (by decide) (by decide)⟩⟩

/-! ## Path resolution -/

theorem normComps_mem (l : List String) :
    ∀ (acc : List String) (c : String), c ∈ normComps acc l →
      c ∈ acc ∨ (c ∈ l ∧ c ≠ "." ∧ c ≠ "..") := by
  induction l with
  | nil =>
    intro acc c hc
    left
    rw [normComps] at hc
    exact List.mem_reverse.mp hc
  | cons d ds ih =>
    intro acc c hc
    by_cases h1 : d = "."
    · rw [normComps, if_pos h1] at hc
      rcases ih acc c hc with h | ⟨h, hne⟩
      · exact Or.inl h
      · exact Or.inr ⟨List.mem_cons_of_mem d h, hne⟩
    · by_cases h2 : d = ".."
      · rw [normComps, if_neg h1, if_pos h2] at hc
        rcases ih acc.tail c hc with h | ⟨h, hne⟩
        · exact Or.inl (List.mem_of_mem_tail h)
        · exact Or.inr ⟨List.mem_cons_of_mem d h, hne⟩
      · rw [normComps, if_neg h1, if_neg h2] at hc
        rcases ih (d :: acc) c hc with h | ⟨h, hne⟩
        · rcases List.mem_cons.mp h with h | h
          · subst h
            exact Or.inr ⟨List.mem_cons_self c ds, h1, h2⟩
          · exact Or.inl h
        · exact Or.inr ⟨List.mem_cons_of_mem d h, hne⟩

theorem resolveDataset_no_dots (env : FsEnv) (p : PyPath) :
    "." ∉ (resolveDataset env p).comps ∧ ".." ∉ (resolveDataset env p).comps := by
  constructor
  · intro hmem
    rcases normComps_mem _ [] _ hmem with h | ⟨-, hne, -⟩
    · simp at h
    · exact hne rfl
  · intro hmem
    rcases normComps_mem _ [] _ hmem with h | ⟨-, -, hne⟩
    · simp at h
    · exact hne rfl

/-- Claim C4: the dataset path is resolved exactly as the spec words it —
project root is the parent of the working directory iff that directory is
named `notebooks`, relative inputs are joined to the root while absolute
inputs pass through, and the result is an absolute, `.`/`..`-free path;
moreover `load_coursera_data` consults the filesystem only at that
resolved path, so the existence check happens after canonicalisation. -/
theorem C4_path_resolution :
    (∀ (env : FsEnv) (p : PyPath), resolveDataset env p = specResolvedPath env p) ∧
    (∀ (env : FsEnv) (p : PyPath), (resolveDataset env p).absolute = true) ∧
    (∀ (env : FsEnv) (p : PyPath),
      "." ∉ (resolveDataset env p).comps ∧ ".." ∉ (resolveDataset env p).comps) ∧
    (∀ (env : FsEnv) (f : PyPath → Bool) (p : PyPath),
      f (resolveDataset env p) = env.isFile (resolveDataset env p) →
      load_coursera_data { env with isFile := f } p = load_coursera_data env p) := by
  refine ⟨fun env p => rfl, fun env p => rfl, resolveDataset_no_dots, ?_⟩
  intro env f p h
  have hres : resolveDataset { env with isFile := f } p = resolveDataset env p := rfl
  unfold load_coursera_data
  simp only [hres, h, FsEnv.cwd, projectRoot]

/-- Witness for C4: with the all-false `is_file` of the sample environment
and an oracle agreeing with it at the resolved default dataset path,
loading behaves identically. -/
theorem C4_path_resolution_witness :
    altIsFile (resolveDataset sampleEnv dataPath) =
      sampleEnv.isFile (resolveDataset sampleEnv dataPath) ∧
    load_coursera_data { sampleEnv with isFile := altIsFile } dataPath =
      load_coursera_data sampleEnv dataPath :=
  ⟨by decide, C4_path_resolution.2.2.2 sampleEnv altIsFile dataPath (by decide)⟩

/-! ## Loader error behaviour -/

theorem load_not_found (env : FsEnv) (p : PyPath)
    (h : env.isFile (resolveDataset env p) = false) :
    load_coursera_data env p = .error (.mk "FileNotFoundError"
      (wrapMessage
        (fnfMessage (resolveDataset env p) env.cwd (projectRoot env) env.osName)
        env.osName env.cwd (resolveDataset env p))
      (some (.mk "FileNotFoundError"
        (fnfMessage (resolveDataset env p) env.cwd (projectRoot env) env.osName)
        none true))
      true) := by
  unfold load_coursera_data
  simp [h, PyExc.kind, PyExc.msg, PyExc.oneArg]

theorem load_read_error (env : FsEnv) (p : PyPath) (e : PyExc)
    (hf : env.isFile (resolveDataset env p) = true)
    (hr : env.readCsv (resolveDataset env p) = .error e)
    (hone : e.oneArg = true) :
    load_coursera_data env p = .error (.mk e.kind
      (wrapMessage e.msg env.osName env.cwd (resolveDataset env p)) (some e)
      true) := by
  unfold load_coursera_data
  simp [hf, hr, hone]

theorem load_read_error_badctor (env : FsEnv) (p : PyPath) (e : PyExc)
    (hf : env.isFile (resolveDataset env p) = true)
    (hr : env.readCsv (resolveDataset env p) = .error e)
    (hone : e.oneArg = false) :
    load_coursera_data env p =
      .error (.mk "TypeError" (ctorFailMessage e.kind) none true) := by
  unfold load_coursera_data
  simp [hf, hr, hone]

set_option maxRecDepth 8000 in
/-- Claim C5: when the resolved path is not an existing file, the loader
fails with a `FileNotFoundError` whose message contains
`Dataset file not found` and embeds the resolved path, the working
directory, the project root and the operating system name. -/
theorem C5_not_found_error :
    ∀ (env : FsEnv) (p : PyPath), env.isFile (resolveDataset env p) = false →
      ∃ e, load_coursera_data env p = .error e ∧
        e.kind = "FileNotFoundError" ∧
        ("Dataset file not found" : String).data <:+: e.msg.data ∧
        (pathStr (resolveDataset env p)).data <:+: e.msg.data ∧
        (pathStr env.cwd).data <:+: e.msg.data ∧
        (pathStr (projectRoot env)).data <:+: e.msg.data ∧
        env.osName.data <:+: e.msg.data := by
  intro env p h
  refine ⟨_, load_not_found env p h, rfl, ?_, ?_, ?_, ?_, ?_⟩
  · have hbase : ("Dataset file not found" : String).data <:+:
        ("Dataset file not found at: " : String).data :=
      ⟨[], " at: ".data, by decide⟩
    refine hbase.trans ⟨[], (pathStr (resolveDataset env p) ++ "\n" ++
      "Current directory: " ++ pathStr env.cwd ++ "\n" ++
      "Project root: " ++ pathStr (projectRoot env) ++ "\n" ++
      "Operating system: " ++ env.osName ++ "\n" ++
      "Ensure you" ++ sq ++ "re running from the project root or notebooks " ++
      "directory." ++ "\n" ++
      "Operating system: " ++ env.osName ++ "\n" ++
      "Current directory: " ++ pathStr env.cwd ++ "\n" ++
      "Attempted path: " ++ pathStr (resolveDataset env p)).data, ?_⟩
    simp [PyExc.msg, wrapMessage, fnfMessage, String.data_append, List.append_assoc]
  · refine ⟨("Dataset file not found at: " : String).data, ("\n" ++
      "Current directory: " ++ pathStr env.cwd ++ "\n" ++
      "Project root: " ++ pathStr (projectRoot env) ++ "\n" ++
      "Operating system: " ++ env.osName ++ "\n" ++
      "Ensure you" ++ sq ++ "re running from the project root or notebooks " ++
      "directory." ++ "\n" ++
      "Operating system: " ++ env.osName ++ "\n" ++
      "Current directory: " ++ pathStr env.cwd ++ "\n" ++
      "Attempted path: " ++ pathStr (resolveDataset env p)).data, ?_⟩
    simp [PyExc.msg, wrapMessage, fnfMessage, String.data_append, List.append_assoc]
  · refine ⟨("Dataset file not found at: " ++ pathStr (resolveDataset env p) ++
      "\n" ++ "Current directory: ").data, ("\n" ++
      "Project root: " ++ pathStr (projectRoot env) ++ "\n" ++
      "Operating system: " ++ env.osName ++ "\n" ++
      "Ensure you" ++ sq ++ "re running from the project root or notebooks " ++
      "directory." ++ "\n" ++
      "Operating system: " ++ env.osName ++ "\n" ++
      "Current directory: " ++ pathStr env.cwd ++ "\n" ++
      "Attempted path: " ++ pathStr (resolveDataset env p)).data, ?_⟩
    simp [PyExc.msg, wrapMessage, fnfMessage, String.data_append, List.append_assoc]
  · refine ⟨("Dataset file not found at: " ++ pathStr (resolveDataset env p) ++
      "\n" ++ "Current directory: " ++ pathStr env.cwd ++ "\n" ++
      "Project root: ").data, ("\n" ++
      "Operating system: " ++ env.osName ++ "\n" ++
      "Ensure you" ++ sq ++ "re running from the project root or notebooks " ++
      "directory." ++ "\n" ++
      "Operating system: " ++ env.osName ++ "\n" ++
      "Current directory: " ++ pathStr env.cwd ++ "\n" ++
      "Attempted path: " ++ pathStr (resolveDataset env p)).data, ?_⟩
    simp [PyExc.msg, wrapMessage, fnfMessage, String.data_append, List.append_assoc]
  · refine ⟨("Dataset file not found at: " ++ pathStr (resolveDataset env p) ++
      "\n" ++ "Current directory: " ++ pathStr env.cwd ++ "\n" ++
      "Project root: " ++ pathStr (projectRoot env) ++ "\n" ++
      "Operating system: ").data, ("\n" ++
      "Ensure you" ++ sq ++ "re running from the project root or notebooks " ++
      "directory." ++ "\n" ++
      "Operating system: " ++ env.osName ++ "\n" ++
      "Current directory: " ++ pathStr env.cwd ++ "\n" ++
      "Attempted path: " ++ pathStr (resolveDataset env p)).data, ?_⟩
    simp [PyExc.msg, wrapMessage, fnfMessage, String.data_append, List.append_assoc]

/-- Witness for C5: the sample environment has no file anywhere, so the
default dataset path triggers the not-found error. -/
theorem C5_not_found_error_witness :
    sampleEnv.isFile (resolveDataset sampleEnv dataPath) = false ∧
    (∃ e, load_coursera_data sampleEnv dataPath = .error e ∧
      e.kind = "FileNotFoundError" ∧
      ("Dataset file not found" : String).data <:+: e.msg.data ∧
      (pathStr (resolveDataset sampleEnv dataPath)).data <:+: e.msg.data ∧
      (pathStr sampleEnv.cwd).data <:+: e.msg.data ∧
      (pathStr (projectRoot sampleEnv)).data <:+: e.msg.data ∧
      sampleEnv.osName.data <:+: e.msg.data) :=
  ⟨rfl, C5_not_found_error sampleEnv dataPath rfl⟩

set_option maxRecDepth 8000 in
/-- Counterexample to claim C6 as stated: a reader error of a class whose
constructor does not take a single message string — such as the
`UnicodeDecodeError` of an encoding failure — makes the re-wrap
`raise type(error)(message)` itself fail, so the caller sees a `TypeError`
from inside the handler, with a different kind and no chained cause. -/
theorem C6_counterexample :
    unicodeReadEnv.isFile (resolveDataset unicodeReadEnv dataPath) = true ∧
    unicodeReadEnv.readCsv (resolveDataset unicodeReadEnv dataPath) =
      .error unicodeErr ∧
    load_coursera_data unicodeReadEnv dataPath =
      .error (.mk "TypeError" (ctorFailMessage "UnicodeDecodeError") none true) ∧
    ("TypeError" : String) ≠ unicodeErr.kind ∧
    (PyExc.mk "TypeError" (ctorFailMessage "UnicodeDecodeError") none true).cause ≠
      some unicodeErr := by
  refine ⟨rfl, rfl, rfl, by decide, by simp [PyExc.cause]⟩

/-- Claim C6 (amended): a reader error whose class is constructible from a
single message string is re-raised with the same kind, a message
containing the original message and `Attempted path`, and the original
error chained as its cause; a reader error whose class is not so
constructible instead surfaces as the `TypeError` raised by the re-wrap
itself, losing the original kind and cause. -/
theorem C6_read_error_wrapped_amended :
    (∀ (env : FsEnv) (p : PyPath) (e : PyExc),
      env.isFile (resolveDataset env p) = true →
      env.readCsv (resolveDataset env p) = .error e →
      e.oneArg = true →
      ∃ e2, load_coursera_data env p = .error e2 ∧
        e2.kind = e.kind ∧
        e.msg.data <:+: e2.msg.data ∧
        ("Attempted path" : String).data <:+: e2.msg.data ∧
        e2.cause = some e) ∧
    (∀ (env : FsEnv) (p : PyPath) (e : PyExc),
      env.isFile (resolveDataset env p) = true →
      env.readCsv (resolveDataset env p) = .error e →
      e.oneArg = false →
      load_coursera_data env p =
        .error (.mk "TypeError" (ctorFailMessage e.kind) none true)) := by
  constructor
  · intro env p e hf hr hone
    refine ⟨_, load_read_error env p e hf hr hone, rfl, ?_, ?_, rfl⟩
    · refine ⟨[], ("\n" ++ "Operating system: " ++ env.osName ++ "\n" ++
        "Current directory: " ++ pathStr env.cwd ++ "\n" ++
        "Attempted path: " ++ pathStr (resolveDataset env p)).data, ?_⟩
      simp [PyExc.msg, wrapMessage, String.data_append, List.append_assoc]
    · have hbase : ("Attempted path" : String).data <:+:
          ("Attempted path: " : String).data := ⟨[], ": ".data, by decide⟩
      refine hbase.trans ⟨(e.msg ++ "\n" ++ "Operating system: " ++ env.osName ++
        "\n" ++ "Current directory: " ++ pathStr env.cwd ++ "\n").data,
        (pathStr (resolveDataset env p)).data, ?_⟩
      simp [PyExc.msg, wrapMessage, String.data_append, List.append_assoc]
  · intro env p e hf hr hone
    exact load_read_error_badctor env p e hf hr hone

/-- Witness for the amended C6: a single-arg-constructible `ParserError`
is re-wrapped with kind, message and cause preserved, while the
five-argument `UnicodeDecodeError` surfaces as a `TypeError`. -/
theorem C6_read_error_wrapped_amended_witness :
    (readFailEnv.isFile (resolveDataset readFailEnv dataPath) = true ∧
      readFailEnv.readCsv (resolveDataset readFailEnv dataPath) =
        .error (.mk "ParserError" "Read error" none true) ∧
      (PyExc.mk "ParserError" "Read error" none true).oneArg = true ∧
      (∃ e2, load_coursera_data readFailEnv dataPath = .error e2 ∧
        e2.kind = (PyExc.mk "ParserError" "Read error" none true).kind ∧
        (PyExc.mk "ParserError" "Read error" none true).msg.data <:+: e2.msg.data ∧
        ("Attempted path" : String).data <:+: e2.msg.data ∧
        e2.cause = some (.mk "ParserError" "Read error" none true))) ∧
    (unicodeReadEnv.isFile (resolveDataset unicodeReadEnv dataPath) = true ∧
      unicodeReadEnv.readCsv (resolveDataset unicodeReadEnv dataPath) =
        .error unicodeErr ∧
      unicodeErr.oneArg = false ∧
      load_coursera_data unicodeReadEnv dataPath =
        .error (.mk "TypeError" (ctorFailMessage unicodeErr.kind) none true)) :=
  ⟨⟨rfl, rfl, rfl,
    C6_read_error_wrapped_amended.1 readFailEnv dataPath
      (.mk "ParserError" "Read error" none true) rfl rfl rfl⟩,
   ⟨rfl, rfl, rfl,
    C6_read_error_wrapped_amended.2 unicodeReadEnv dataPath unicodeErr rfl rfl rfl⟩⟩

set_option maxRecDepth 8000 in
/-- Claim C9: the not-found error actually raised is the re-wrapped copy
produced by the generic handler — same class, the original
`FileNotFoundError` as its cause, and the diagnostic context (operating
system, current directory, attempted path) present twice in its message. -/
theorem C9_fnf_rewrapped :
    ∀ (env : FsEnv) (p : PyPath), env.isFile (resolveDataset env p) = false →
      ∃ e, load_coursera_data env p = .error e ∧
        e.kind = "FileNotFoundError" ∧
        e.cause = some (.mk "FileNotFoundError"
          (fnfMessage (resolveDataset env p) env.cwd (projectRoot env) env.osName)
          none true) ∧
        twoOcc ("Operating system: " : String).data e.msg.data ∧
        twoOcc ("Current directory: " : String).data e.msg.data ∧
        twoOcc (pathStr (resolveDataset env p)).data e.msg.data := by
  intro env p h
  refine ⟨_, load_not_found env p h, rfl, rfl, ?_, ?_, ?_⟩
  · refine ⟨("Dataset file not found at: " ++ pathStr (resolveDataset env p) ++
      "\n" ++ "Current directory: " ++ pathStr env.cwd ++ "\n" ++
      "Project root: " ++ pathStr (projectRoot env) ++ "\n").data,
      (env.osName ++ "\n" ++
       "Ensure you" ++ sq ++ "re running from the project root or notebooks " ++
       "directory." ++ "\n").data,
      (env.osName ++ "\n" ++ "Current directory: " ++ pathStr env.cwd ++ "\n" ++
       "Attempted path: " ++ pathStr (resolveDataset env p)).data, ?_⟩
    simp [PyExc.msg, wrapMessage, fnfMessage, String.data_append, List.append_assoc]
  · refine ⟨("Dataset file not found at: " ++ pathStr (resolveDataset env p) ++
      "\n").data,
      (pathStr env.cwd ++ "\n" ++
       "Project root: " ++ pathStr (projectRoot env) ++ "\n" ++
       "Operating system: " ++ env.osName ++ "\n" ++
       "Ensure you" ++ sq ++ "re running from the project root or notebooks " ++
       "directory." ++ "\n" ++
       "Operating system: " ++ env.osName ++ "\n").data,
      (pathStr env.cwd ++ "\n" ++
       "Attempted path: " ++ pathStr (resolveDataset env p)).data, ?_⟩
    simp [PyExc.msg, wrapMessage, fnfMessage, String.data_append, List.append_assoc]
  · refine ⟨("Dataset file not found at: " : String).data,
      ("\n" ++ "Current directory: " ++ pathStr env.cwd ++ "\n" ++
       "Project root: " ++ pathStr (projectRoot env) ++ "\n" ++
       "Operating system: " ++ env.osName ++ "\n" ++
       "Ensure you" ++ sq ++ "re running from the project root or notebooks " ++
       "directory." ++ "\n" ++
       "Operating system: " ++ env.osName ++ "\n" ++
       "Current directory: " ++ pathStr env.cwd ++ "\n" ++
       "Attempted path: ").data,
      ([] : List Char), ?_⟩
    simp [PyExc.msg, wrapMessage, fnfMessage, String.data_append, List.append_assoc]

/-- Witness for C9: the same no-file sample environment. -/
theorem C9_fnf_rewrapped_witness :
    sampleEnv.isFile (resolveDataset sampleEnv dataPath) = false ∧
    (∃ e, load_coursera_data sampleEnv dataPath = .error e ∧
      e.kind = "FileNotFoundError" ∧
      e.cause = some (.mk "FileNotFoundError"
        (fnfMessage (resolveDataset sampleEnv dataPath) sampleEnv.cwd
          (projectRoot sampleEnv) sampleEnv.osName) none true) ∧
      twoOcc ("Operating system: " : String).data e.msg.data ∧
      twoOcc ("Current directory: " : String).data e.msg.data ∧
      twoOcc (pathStr (resolveDataset sampleEnv dataPath)).data e.msg.data) :=
  ⟨rfl, C9_fnf_rewrapped sampleEnv dataPath rfl⟩

/-! ## Outlier detector -/

theorem detect_outlierTable_eval :
    detect_and_print_outliers_iqr outlierTable "course_students_enrolled" =
      .ok ⟨"Potential outliers for " ++ sq ++ "course_students_enrolled" ++ sq ++ ":",
        [sampleRow "OrgF" 5 10000000 "Advanced" "Verified"]⟩ := by
  have hidx : colIndex outlierTable.cols "course_students_enrolled" = some 2 := by
    decide
  have hnum : (columnValues outlierTable 2).all CellValue.isNumeric = true := by
    decide
  have hvals : (columnValues outlierTable 2).map CellValue.toRat =
      [1200, 3500, 500, 2000000, 750, 1800, 10000000] := by
    norm_num [columnValues, cellAt, outlierTable, sampleRow, sampleCols,
      CellValue.toRat]
  have hsort : sortRats [1200, 3500, 500, 2000000, 750, 1800, 10000000] =
      [500, 750, 1200, 1800, 3500, 2000000, 10000000] := by
    norm_num [sortRats, insertRat]
  have hq1 : quantileLinear [500, 750, 1200, 1800, 3500, 2000000, 10000000] 1 4 =
      975 := by
    norm_num [quantileLinear]
  have hq3 : quantileLinear [500, 750, 1200, 1800, 3500, 2000000, 10000000] 3 4 =
      1001750 := by
    norm_num [quantileLinear]
  have hb : outlierBounds [1200, 3500, 500, 2000000, 750, 1800, 10000000] =
      (-3000375 / 2, 5005825 / 2) := by
    rw [outlierBounds, hsort]
    rw [hq1, hq3]
    norm_num
  have hfilter : outlierTable.rows.filter
      (fun r => isOutlier (-3000375 / 2) (5005825 / 2) (cellAt 2 r).toRat) =
      [sampleRow "OrgF" 5 10000000 "Advanced" "Verified"] := by
    norm_num [outlierTable, sampleRow, cellAt, isOutlier, CellValue.toRat,
      List.filter]
  rw [detect_and_print_outliers_iqr, hidx]
  simp only [hnum, if_true, hvals, hb]
  rw [hfilter]

/-- Claim C7 (spec-modelled): on success the detector reports the header
line identifying the column unconditionally — also with zero outliers —
followed by exactly those full rows whose value lies strictly outside
`Q1 - 1.5 IQR` or strictly above `Q3 + 1.5 IQR`, with the quartiles
computed by linear interpolation between ranked values. -/
theorem C7_outlier_report :
    ∀ (t : Table) (c : String) (i : Nat) (rep : OutlierReport),
      colIndex t.cols c = some i →
      detect_and_print_outliers_iqr t c = .ok rep →
      rep.header = "Potential outliers for " ++ sq ++ c ++ sq ++ ":" ∧
      rep.outliers = t.rows.filter (fun r =>
        isOutlier (outlierBounds ((columnValues t i).map CellValue.toRat)).1
          (outlierBounds ((columnValues t i).map CellValue.toRat)).2
          (cellAt i r).toRat) ∧
      (∀ r, r ∈ rep.outliers ↔ r ∈ t.rows ∧
        ((cellAt i r).toRat <
            (outlierBounds ((columnValues t i).map CellValue.toRat)).1 ∨
          (outlierBounds ((columnValues t i).map CellValue.toRat)).2 <
            (cellAt i r).toRat)) := by
  intro t c i rep hidx hok
  simp only [detect_and_print_outliers_iqr, hidx] at hok
  by_cases hnum : (columnValues t i).all CellValue.isNumeric = true
  · simp only [hnum, if_true] at hok
    injection hok with hok
    subst hok
    refine ⟨rfl, rfl, fun r => ?_⟩
    simp [List.mem_filter, isOutlier]
  · simp only [hnum, Bool.false_eq_true, if_false] at hok
    exact absurd hok (by simp)

/-- Witness for C7: on the seven-row test table the detector succeeds,
reports the header for `course_students_enrolled`, and flags exactly the
`OrgF` row with 10000000 students. -/
theorem C7_outlier_report_witness :
    colIndex outlierTable.cols "course_students_enrolled" = some 2 ∧
    detect_and_print_outliers_iqr outlierTable "course_students_enrolled" =
      .ok ⟨"Potential outliers for " ++ sq ++ "course_students_enrolled" ++ sq ++ ":",
        [sampleRow "OrgF" 5 10000000 "Advanced" "Verified"]⟩ ∧
    (OutlierReport.mk
        ("Potential outliers for " ++ sq ++ "course_students_enrolled" ++ sq ++ ":")
        [sampleRow "OrgF" 5 10000000 "Advanced" "Verified"]).header =
      "Potential outliers for " ++ sq ++ "course_students_enrolled" ++ sq ++ ":" :=
  ⟨by decide, detect_outlierTable_eval,
    (C7_outlier_report outlierTable "course_students_enrolled" 2 _ (by decide)
      detect_outlierTable_eval).1⟩

theorem colIndex_eq_none (cols : List String) (c : String) (h : c ∉ cols) :
    colIndex cols c = none := by
  induction cols with
  | nil => rfl
  | cons d ds ih =>
    have h1 : ¬d = c := fun hd => h (hd ▸ List.mem_cons_self d ds)
    rw [colIndex, if_neg h1, ih fun hm => h (List.mem_cons_of_mem d hm)]
    rfl

/-- Claim C8 (spec-modelled): a column name outside the table fails with a
`KeyError` naming that column; an existing column containing any
non-numeric value fails with a `TypeError`. -/
theorem C8_detect_errors :
    (∀ (t : Table) (c : String), c ∉ t.cols →
      detect_and_print_outliers_iqr t c = .error (.keyError c)) ∧
    (∀ (t : Table) (c : String) (i : Nat), colIndex t.cols c = some i →
      (∃ v ∈ columnValues t i, v.isNumeric = false) →
      detect_and_print_outliers_iqr t c = .error (.typeError c)) := by
  constructor
  · intro t c h
    simp only [detect_and_print_outliers_iqr, colIndex_eq_none t.cols c h]
  · intro t c i hidx hex
    obtain ⟨v, hv, hnum⟩ := hex
    have hall : (columnValues t i).all CellValue.isNumeric = false := by
      cases hA : (columnValues t i).all CellValue.isNumeric
      · rfl
      · exact absurd (List.all_eq_true.mp hA v hv) (by simp [hnum])
    simp only [detect_and_print_outliers_iqr, hidx, hall, Bool.false_eq_true,
      if_false]

/-- Witness for C8: the six-row fixture table has no
`non_existent_column`, and its `organization` column is textual. -/
theorem C8_detect_errors_witness :
    ("non_existent_column" ∉ sampleTable.cols ∧
      detect_and_print_outliers_iqr sampleTable "non_existent_column" =
        .error (.keyError "non_existent_column")) ∧
    (colIndex sampleTable.cols "organization" = some 0 ∧
      (∃ v ∈ columnValues sampleTable 0, v.isNumeric = false) ∧
      detect_and_print_outliers_iqr sampleTable "organization" =
        .error (.typeError "organization")) :=
  ⟨⟨by decide, C8_detect_errors.1 sampleTable "non_existent_column" (by decide)⟩,
   ⟨by decide, ⟨.strVal "OrgA", by decide, by decide⟩,
    C8_detect_errors.2 sampleTable "organization" 0 (by decide)
      ⟨.strVal "OrgA", by decide, by decide⟩⟩⟩

end Coursera
